import Mathlib

/-!
Verification of the Tabular File Loader (`readDataFromCSV` in
`src/helpers/csvUtil.ts`) of the SonicFramework repository.

The source function wires a Node.js file read stream through the
`csv-parser` transform and settles a promise from three event handlers:

  fs.createReadStream(filePath)
    .pipe(csv())
    .on('data',  (row)   => { data.push(row); })
    .on('end',   ()      => { resolve(data); })
    .on('error', (error) => { reject(error); });

We embed this shallowly:

* a `Row` is an ordered association list from column name to cell value
  (both strings, exactly as the parser produces them);
* the stream that the three handlers listen on is modelled as the list of
  events it emits, in order (`StreamEvent`);
* the promise is modelled by `LoaderState`: the accumulated `data` array
  and an `outcome` that is `none` while the promise is pending and holds
  the first resolution or rejection afterwards — in JavaScript a promise
  settles at most once, so `resolve`/`reject` on a settled promise is a
  no-op, which is exactly what `handleEvent` does;
* the `csv-parser` decoding (an external npm dependency, not part of this
  repository) is modelled from the spec: the first line defines column
  names, each later line is split on the comma and zipped positionally
  with the column names (`decodeLine`, `parseCSV`);
* the connection between a file and the events the handlers see is
  modelled by `pipedEvents`.  Crucially, all three handlers are attached
  to the stream returned by `.pipe(csv())`, i.e. to the parser stream,
  and Node's `pipe` forwards `data` and `end` but *not* `error` events of
  the source stream.  A file-access failure (e.g. ENOENT) is therefore
  emitted on the `fs` read stream, which has no listener, and never
  reaches the handlers: the parser stream emits no events at all and the
  promise stays pending forever, while Node raises an uncaught error.
-/

namespace SonicFramework

/-- A decoded Row Record: an ordered mapping from column name to cell
value, both kept as strings (no coercion), keys in header order. -/
abbrev Row := List (String × String)

/-- The error taxonomy of the spec (§7): a file-access failure or a
decode/parse failure, each carrying a message. -/
inductive Err where
  | access (msg : String)
  | decode (msg : String)
deriving DecidableEq, Repr

/-- The events the stream that the handlers are attached to can emit:
a decoded row (`data`), end of input (`end`, here `endEvent` since `end`
is a Lean keyword), or an error emitted by that stream itself. -/
inductive StreamEvent where
  | data (row : Row)
  | endEvent
  | error (e : Err)
deriving DecidableEq, Repr

/-- A settled promise: resolved with the accumulated Dataset or rejected
with an error. -/
inductive Outcome where
  | resolved (d : List Row)
  | rejected (e : Err)
deriving DecidableEq, Repr

/-- The state of one invocation of `readDataFromCSV`: the local `data`
array and the promise, `none` while still pending.  Each call allocates
a fresh state (`initState`); nothing is shared between calls. -/
structure LoaderState where
  data : List Row
  outcome : Option Outcome
deriving DecidableEq, Repr

def initState : LoaderState := ⟨[], none⟩

/-- The three event handlers of `csvUtil.ts` (lines 23–40):
`data` pushes the row onto the local array, `end` resolves the promise
with the array, `error` rejects it.  A promise settles at most once, so
`end`/`error` leave an already settled outcome unchanged; the `push` in
the `data` handler runs unconditionally, as in the source. -/
def handleEvent (s : LoaderState) (ev : StreamEvent) : LoaderState :=
  match ev with
  | .data row => { s with data := s.data ++ [row] }
  | .endEvent =>
      match s.outcome with
      | none => { s with outcome := some (Outcome.resolved s.data) }
      | some _ => s
  | .error e =>
      match s.outcome with
      | none => { s with outcome := some (Outcome.rejected e) }
      | some _ => s

/-- Run one invocation's handlers over the event sequence the parser
stream emits, starting from a fresh local state. -/
def runEvents (evs : List StreamEvent) : LoaderState :=
  evs.foldl handleEvent initState

/-- Splitting one line of delimited text on the comma delimiter
(`"a,b"` becomes `["a", "b"]`, an empty line becomes `[""]`). -/
def splitOnComma (line : String) : List String :=
  (line.toList.splitOn ',').map List.asString

/-- Modelled from the spec: the line-to-record conversion of the external
`csv-parser` dependency (not part of this repository) — "each subsequent
line is split on the same delimiter and zipped positionally with the
column names to form a Row Record" (§4.1 step 2). -/
def decodeLine (cols : List String) (line : String) : Row :=
  cols.zip (splitOnComma line)

/-- Modelled from the spec: decoding a whole file, given as its list of
lines — "the first line defines column names", every later line becomes
one Row Record, in file order (§4.1 steps 2–3). -/
def parseCSV (lines : List String) : List Row :=
  match lines with
  | [] => []
  | header :: rest => rest.map (decodeLine (splitOnComma header))

/-- What the loader can be pointed at: a readable text file with the
given lines, or a path that cannot be opened (nonexistent, not a file,
no permission). -/
inductive FileStatus where
  | readable (lines : List String)
  | inaccessible (msg : String)
deriving DecidableEq, Repr

/-- Modelled from the spec and Node stream semantics: the events emitted
by the stream returned by `.pipe(csv())`, which is where all three
handlers are attached. For a readable file the parser emits one `data`
event per decoded row, in file order, then `end`.  For an inaccessible
path the access error is emitted on the `fs.createReadStream` source
stream; `pipe` does not forward `error` events, so the parser stream —
the only stream the handlers listen on — emits nothing at all. -/
def pipedEvents : FileStatus → List StreamEvent
  | .readable lines => (parseCSV lines).map StreamEvent.data ++ [StreamEvent.endEvent]
  | .inaccessible _ => []

/-- The observable result of `readDataFromCSV` on a file: `none` when the
promise never settles, otherwise the resolution or rejection. -/
def readDataFromCSV (f : FileStatus) : Option Outcome :=
  (runEvents (pipedEvents f)).outcome

/-! ### Helper lemmas -/

/-- Pushing the data events of `rows` only appends `rows` to the array
and leaves a pending promise pending. -/
lemma foldl_data_events (rows : List Row) (acc : List Row) :
    (rows.map StreamEvent.data).foldl handleEvent ⟨acc, none⟩ =
      ⟨acc ++ rows, none⟩ := by
  induction rows generalizing acc with
  | nil => simp
  | cons r rs ih =>
      simp only [List.map_cons, List.foldl_cons, handleEvent]
      rw [ih]
      simp

/-- A full successful stream — all rows then `end` — resolves with
exactly the rows, in order. -/
lemma runEvents_data_end (rows : List Row) :
    runEvents ((rows.map StreamEvent.data) ++ [StreamEvent.endEvent]) =
      ⟨rows, some (Outcome.resolved rows)⟩ := by
  unfold runEvents initState
  rw [List.foldl_append, foldl_data_events]
  simp [handleEvent]

/-- An event cannot unsettle or change a settled promise. -/
lemma handleEvent_settled (s : LoaderState) (ev : StreamEvent) (o : Outcome)
    (h : s.outcome = some o) : (handleEvent s ev).outcome = some o := by
  cases ev <;> simp [handleEvent, h]

/-- No sequence of further events changes a settled promise. -/
lemma foldl_settled (evs : List StreamEvent) (s : LoaderState) (o : Outcome)
    (h : s.outcome = some o) : (evs.foldl handleEvent s).outcome = some o := by
  induction evs generalizing s with
  | nil => exact h
  | cons ev rest ih => exact ih _ (handleEvent_settled s ev o h)

/-- The keys of a positional zip are the first `l2.length` columns. -/
lemma map_fst_zip_take {α β : Type} (l1 : List α) (l2 : List β) :
    (l1.zip l2).map Prod.fst = l1.take l2.length := by
  induction l1 generalizing l2 with
  | nil => simp
  | cons a as ih =>
      cases l2 with
      | nil => simp
      | cons b bs => simp [ih]

/-! ### Two concurrent invocations

Each call of `readDataFromCSV` allocates its own `data` array and its own
promise inside the `Promise` executor; there is no module-level mutable
state in `csvUtil.ts`.  We model two concurrent invocations as one
interleaved sequence of tagged events, each tag routed to its own
`LoaderState`, and show each invocation's result is exactly what it would
be had the other not run. -/

/-- One step of two interleaved invocations: the event is routed to the
invocation named by the tag; the other invocation's state is untouched. -/
def step2 (p : LoaderState × LoaderState) (tev : Bool × StreamEvent) :
    LoaderState × LoaderState :=
  if tev.1 then (handleEvent p.1 tev.2, p.2) else (p.1, handleEvent p.2 tev.2)

/-- The events of the interleaving that belong to invocation `b`. -/
def proj (b : Bool) (evs : List (Bool × StreamEvent)) : List StreamEvent :=
  evs.filterMap (fun tev => if tev.1 = b then some tev.2 else none)

/-- Run two interleaved invocations, each from its own fresh state. -/
def runTwo (evs : List (Bool × StreamEvent)) : LoaderState × LoaderState :=
  evs.foldl step2 (initState, initState)

/-- Interleaved execution is the product of the two isolated executions. -/
lemma foldl_step2_proj (evs : List (Bool × StreamEvent))
    (s1 s2 : LoaderState) :
    evs.foldl step2 (s1, s2) =
      ((proj true evs).foldl handleEvent s1,
       (proj false evs).foldl handleEvent s2) := by
  induction evs generalizing s1 s2 with
  | nil => simp [proj]
  | cons tev rest ih =>
      obtain ⟨b, ev⟩ := tev
      cases b <;> simp [step2, proj, List.filterMap_cons] <;>
        simpa [proj] using ih _ _

/-! ### The claims -/

/-- Claim C1: for a well-formed file whose header line is `a,b` and whose
data lines are `1,2` and `3,4`, `readDataFromCSV` resolves to the
two-element sequence `[{a:"1",b:"2"}, {a:"3",b:"4"}]`, in that order. -/
theorem C1_two_row_file :
    readDataFromCSV (FileStatus.readable ["a,b", "1,2", "3,4"]) =
      some (Outcome.resolved
        [[("a", "1"), ("b", "2")], [("a", "3"), ("b", "4")]]) := by
  decide

/-- Claim C2 (showing the code bug): for a path that cannot be opened, the
access error is emitted on the `fs` source stream, which `pipe` does not
forward and on which no handler listens, so the promise never settles —
it is *not* rejected with the access error as the claim states (and Node
raises an uncaught error event instead). -/
theorem C2_access_error_never_settles (msg : String) :
    readDataFromCSV (FileStatus.inaccessible msg) = none := rfl

/-- Claim C3 (showing the code bug): a decode error emitted by the parser
stream is surfaced to the caller as a rejection carrying that exact
error, but an access failure is never surfaced at all (the promise stays
pending), so the failure outcome delivered to the caller does not cover
the Access case. -/
theorem C3_decode_surfaced_access_lost (m : String) (rows : List Row) :
    (runEvents (rows.map StreamEvent.data ++
        [StreamEvent.error (Err.decode m)])).outcome =
      some (Outcome.rejected (Err.decode m)) ∧
    readDataFromCSV (FileStatus.inaccessible m) = none := by
  constructor
  · unfold runEvents initState
    rw [List.foldl_append, foldl_data_events]
    simp [handleEvent]
  · rfl

/-- Claim C4, counterexample: for the file with header `a,b` and the
short data line `1`, the produced Row Record has key set `{a}`, not the
header's key set `{a, b}` — the positional zip truncates, so the claimed
invariant fails for short lines. -/
theorem C4_short_line_counterexample :
    ¬ ∀ r ∈ parseCSV ["a,b", "1"], r.map Prod.fst = splitOnComma "a,b" := by
  decide

/-- Claim C4 as amended: the keys of every Row Record are, in order, the
first `k` fields of the header, where `k` is the number of delimited
fields on the data line; when the data line has at least as many fields
as the header, the key set is exactly the header's fields. -/
theorem C4_keys_take_of_header (cols : List String) (line : String) :
    (decodeLine cols line).map Prod.fst =
      cols.take (splitOnComma line).length ∧
    (cols.length ≤ (splitOnComma line).length →
      (decodeLine cols line).map Prod.fst = cols) := by
  refine ⟨map_fst_zip_take cols (splitOnComma line), fun h => ?_⟩
  exact List.map_fst_zip cols (splitOnComma line) h

/-- Witness for C4's amended claim at the concrete header `a,b` and data
line `1,2`. -/
theorem C4_keys_take_of_header_witness :
    (splitOnComma "a,b").length ≤ (splitOnComma "1,2").length ∧
    (decodeLine (splitOnComma "a,b") "1,2").map Prod.fst =
      splitOnComma "a,b" :=
  ⟨by decide,
   (C4_keys_take_of_header (splitOnComma "a,b") "1,2").2 (by decide)⟩

/-- Claim C5: for every successfully loaded file, the resolved sequence
has one record per data line, where the record at each position is the
decoding of the data line at the same position — the order of records
exactly matches file line order, whatever the rows contain. -/
theorem C5_row_order_preserved (header : String) (dataLines : List String) :
    readDataFromCSV (FileStatus.readable (header :: dataLines)) =
      some (Outcome.resolved
        (dataLines.map (decodeLine (splitOnComma header)))) := by
  have h := runEvents_data_end (parseCSV (header :: dataLines))
  simp only [readDataFromCSV, pipedEvents, h]
  rfl

/-- Claim C6: a file holding only a header line, and an empty file,
both resolve to the empty sequence rather than failing. -/
theorem C6_header_only_or_empty (header : String) :
    readDataFromCSV (FileStatus.readable [header]) =
      some (Outcome.resolved []) ∧
    readDataFromCSV (FileStatus.readable []) =
      some (Outcome.resolved []) :=
  ⟨rfl, rfl⟩

/-- Claim C7: two invocations on the same unmodified file — modelled as
any interleaving of two stream-event sequences, each being exactly the
events a readable file with those lines produces — settle with
structurally equal outcomes, both resolved with the file's Dataset. -/
theorem C7_same_file_same_dataset (lines : List String)
    (evs : List (Bool × StreamEvent))
    (h1 : proj true evs = pipedEvents (FileStatus.readable lines))
    (h2 : proj false evs = pipedEvents (FileStatus.readable lines)) :
    (runTwo evs).1.outcome = (runTwo evs).2.outcome ∧
    (runTwo evs).1.outcome = some (Outcome.resolved (parseCSV lines)) := by
  have h := foldl_step2_proj evs initState initState
  have hr := runEvents_data_end (parseCSV lines)
  unfold runTwo
  rw [h, h1, h2]
  unfold pipedEvents
  unfold runEvents at hr
  rw [hr]
  exact ⟨rfl, rfl⟩

/-- Witness for C7 at a concrete two-line file and a concrete
interleaving of the two invocations' events. -/
theorem C7_same_file_same_dataset_witness :
    (proj true
        [(true, StreamEvent.data [("a", "1"), ("b", "2")]),
         (false, StreamEvent.data [("a", "1"), ("b", "2")]),
         (false, StreamEvent.endEvent),
         (true, StreamEvent.endEvent)] =
      pipedEvents (FileStatus.readable ["a,b", "1,2"])) ∧
    (runTwo
        [(true, StreamEvent.data [("a", "1"), ("b", "2")]),
         (false, StreamEvent.data [("a", "1"), ("b", "2")]),
         (false, StreamEvent.endEvent),
         (true, StreamEvent.endEvent)]).1.outcome =
      (runTwo
        [(true, StreamEvent.data [("a", "1"), ("b", "2")]),
         (false, StreamEvent.data [("a", "1"), ("b", "2")]),
         (false, StreamEvent.endEvent),
         (true, StreamEvent.endEvent)]).2.outcome :=
  ⟨by decide,
   (C7_same_file_same_dataset ["a,b", "1,2"] _ (by decide) (by decide)).1⟩

/-- Claim C8: every cell value of every Row Record is one of the
delimited fields of the data line, verbatim and still a string (and its
key is one of the header's fields) — no coercion of any kind is applied
by the decoding. -/
theorem C8_values_kept_verbatim (cols : List String) (line : String)
    (kv : String × String) (h : kv ∈ decodeLine cols line) :
    kv.1 ∈ cols ∧ kv.2 ∈ splitOnComma line := by
  obtain ⟨k, v⟩ := kv
  exact List.of_mem_zip h

/-- Witness for C8 at the header fields `a,b` and the data line `1,2`. -/
theorem C8_values_kept_verbatim_witness :
    ("a", "1") ∈ decodeLine ["a", "b"] "1,2" ∧
    "a" ∈ ["a", "b"] ∧ "1" ∈ splitOnComma "1,2" :=
  ⟨by decide,
   (C8_values_kept_verbatim ["a", "b"] "1,2" ("a", "1") (by decide)).1,
   (C8_values_kept_verbatim ["a", "b"] "1,2" ("a", "1") (by decide)).2⟩

/-- Claim C9: two concurrent invocations, interleaved arbitrarily, share
no state: each one's final state is exactly the state it reaches when
run alone on its own events, so the Dataset or failure each produces is
the same as if the other invocation had not run. -/
theorem C9_invocations_independent (evs : List (Bool × StreamEvent)) :
    runTwo evs = (runEvents (proj true evs), runEvents (proj false evs)) :=
  foldl_step2_proj evs initState initState

/-- Claim C10: the promise settles at most once — once some event
sequence has settled it (resolved or rejected, outcome `o`), processing
any further `data`, `end` or `error` events leaves the caller-observable
outcome exactly `o`. -/
theorem C10_settles_at_most_once (evs1 evs2 : List StreamEvent)
    (o : Outcome) (h : (runEvents evs1).outcome = some o) :
    (runEvents (evs1 ++ evs2)).outcome = some o := by
  unfold runEvents at h ⊢
  rw [List.foldl_append]
  exact foldl_settled evs2 _ o h

/-- Witness for C10: a stream that ends and then errors still resolves
with the empty Dataset captured at the `end` event. -/
theorem C10_settles_at_most_once_witness :
    (runEvents [StreamEvent.endEvent]).outcome =
      some (Outcome.resolved []) ∧
    (runEvents ([StreamEvent.endEvent] ++
        [StreamEvent.error (Err.decode "boom"), StreamEvent.endEvent])).outcome =
      some (Outcome.resolved []) :=
  ⟨by decide,
   C10_settles_at_most_once [StreamEvent.endEvent]
     [StreamEvent.error (Err.decode "boom"), StreamEvent.endEvent]
     (Outcome.resolved []) (by decide)⟩

end SonicFramework
